import Mathlib

/-!
Shallow embedding of the decision logic of `src/background.js` from the
Youtube_content_analyzer browser extension, together with proofs about the
claims of its specification.

Conventions used throughout:
* JavaScript values that may be `undefined`/`null` are modelled as `Option`;
  a key that is absent or the empty string is normalised to `none` (mirroring
  `keys.x || null` in `loadAPIKeys`).
* Network interactions are modelled by passing the response data (or the
  outcome of parsing it) as explicit inputs; the functions below are the
  pure control flow of the source, with `Except` standing for thrown
  JavaScript exceptions.
* `sendDataToPopup` calls are collected into an event trace; `updatePopupStatus`
  calls (action `updateStatus`) are not result events and are not modelled.
* Issued network requests are collected into a request trace.
-/

/-! ## Small JavaScript helpers -/

/-- Semantics of `x || d` for a possibly-missing string `x`
(`undefined` and the empty string are falsy). -/
def jsOr (x : Option String) (d : String) : String :=
  match x with
  | none => d
  | some s => if s = "" then d else s

/-- Truthiness of a possibly-missing string (used for `nextPageToken`). -/
def jsTruthyOpt (x : Option String) : Bool :=
  match x with
  | none => false
  | some s => s ≠ ""

/-- Model of `String.prototype.toLowerCase` for the ASCII strings compared by
the source (`positive` / `negative` / `neutral`). -/
def toLowerAscii (s : String) : String :=
  ⟨s.data.map Char.toLower⟩

/-- Model of `String.prototype.trim`: drop whitespace from both ends. -/
def jsTrim (s : String) : String :=
  ⟨(((s.data.dropWhile Char.isWhitespace).reverse.dropWhile Char.isWhitespace).reverse)⟩

/-! ## Caption tracks and track selection (`fetchTranscriptFromPage`, lines 106-129)

A caption track carries `languageCode`, an optional `kind` (`"asr"` marks an
auto-generated track; an absent or empty `kind` is falsy, i.e. human-authored)
and a `baseUrl`. -/

structure CaptionTrack where
  languageCode : String
  kind : Option String
  baseUrl : String
deriving DecidableEq

/-- Falsiness of the `kind` field: `!t.kind` in the source. -/
def jsFalsyKind (k : Option String) : Bool :=
  match k with
  | none => true
  | some s => s = ""

/-- `tracks.find(t => t.languageCode === lang && !t.kind)`. -/
def findHumanTrack (tracks : List CaptionTrack) (lang : String) : Option CaptionTrack :=
  tracks.find? (fun t => t.languageCode == lang && jsFalsyKind t.kind)

/-- `tracks.find(t => t.languageCode === lang && t.kind === 'asr')`. -/
def findAsrTrack (tracks : List CaptionTrack) (lang : String) : Option CaptionTrack :=
  tracks.find? (fun t => t.languageCode == lang && t.kind == some "asr")

/-- The `for (const lang of langPrefs)` loop of `fetchTranscriptFromPage`:
the accumulator is the current `(bestTrackUrl, foundLang)` pair (or `none`).
A human-authored match assigns and `break`s; an asr match assigns only when
`bestTrackUrl` is still unset, and the loop continues. -/
def selectLoop (tracks : List CaptionTrack) :
    List String → Option (String × String) → Option (String × String)
  | [], best => best
  | lang :: rest, best =>
    match findHumanTrack tracks lang with
    | some t => some (t.baseUrl, lang)
    | none =>
      match best, findAsrTrack tracks lang with
      | none, some t => selectLoop tracks rest (some (t.baseUrl, lang ++ " (auto)"))
      | _, _ => selectLoop tracks rest best

/-- Track selection including the final fallback to `tracks[0]`
(lines 126-129 of the source). Returns `(bestTrackUrl, foundLang)`. -/
def selectTrack (tracks : List CaptionTrack) (langPrefs : List String) :
    Option (String × String) :=
  match selectLoop tracks langPrefs none with
  | some r => some r
  | none =>
    match tracks with
    | [] => none
    | t :: _ => some (t.baseUrl, t.languageCode ++ (if t.kind == some "asr" then " (auto)" else ""))

/-- Default language preferences of `fetchTranscriptFromPage`. -/
def defaultLangPrefs : List String := ["ta", "en"]

/-! ## Transcript text extraction (`fetchTranscriptFromPage`, lines 145-160)

The source collects the full matches of `/<text.*?>(.*?)<\/text>/gs`, strips
tags with `replace(/<[^>]+>/g, '')`, runs a chain of character `replace`s,
trims, and joins with a newline. The list of regex matches (or `null` when the
regex does not match) is the input of the model. -/

/-- One step model of the global replace of `/<[^>]+>/g` with `''`:
at a `<`, the regex consumes up to the first `>` provided at least one
character stands in between; otherwise the `<` is kept and scanning resumes
one character later. The `Nat` argument is fuel (an upper bound on the number
of recursion steps, supplied as the input length plus one) so that the
recursion is structural and kernel-evaluable. -/
def stripTagsFuel : Nat → List Char → List Char
  | 0, l => l
  | _ + 1, [] => []
  | fuel + 1, c :: rest =>
    if c = '<' then
      let mid := rest.takeWhile (fun d => !(d = '>'))
      match rest.dropWhile (fun d => !(d = '>')) with
      | '>' :: tl =>
        if mid.isEmpty then c :: stripTagsFuel fuel rest
        else stripTagsFuel fuel tl
      | _ => c :: stripTagsFuel fuel rest
    else c :: stripTagsFuel fuel rest

/-- `match.replace(/<[^>]+>/g, '')`. -/
def stripTags (s : String) : String :=
  ⟨stripTagsFuel (s.data.length + 1) s.data⟩

/-- Global replace of the single character `pat` by the string `rep`
(each of the five `replace` calls on line 151 uses a one-character pattern). -/
def replaceChar (pat : Char) (rep : String) (s : String) : String :=
  ⟨(s.data.map (fun c => if c = pat then rep.data else [c])).flatten⟩

/-- Line 151 of the source, verbatim:
`text.replace(/&/g, '&').replace(/</g, '<').replace(/>/g, '>').replace(/"/g, '"').replace(/'/g, "'")`.
Each pattern is replaced by itself (the source comment says
`Decode HTML entities`, but the replacement strings are the plain characters,
so no entity reference such as `&amp;` is ever rewritten). -/
def decodeEntities (s : String) : String :=
  replaceChar '\'' "'"
    (replaceChar '"' "\""
      (replaceChar '>' ">"
        (replaceChar '<' "<"
          (replaceChar '&' "&" s))))

/-- Per-entry processing: strip tags, run the entity `replace` chain, trim. -/
def processEntry (m : String) : String :=
  jsTrim (decodeEntities (stripTags m))

/-- Lines 145-160: build the transcript from the regex matches
(`none` models a `null` result of `transcriptXML.match`); an empty line list
is a thrown error, otherwise the lines are joined with a newline. -/
def buildTranscript (textMatches : Option (List String)) : Except String String :=
  let lines := (textMatches.getD []).map processEntry
  if lines.isEmpty then
    Except.error "Transcript content fetched but no text found after parsing."
  else
    Except.ok (String.intercalate "\n" lines)

/-! ## Data carried by result events -/

/-- A fetched comment: `{ id, text }` (lines 237-240). -/
structure Comment where
  id : String
  text : String
deriving DecidableEq

/-- An analyzed comment `{ ...originalComment, sentiment }`. -/
structure AnalyzedComment where
  id : String
  text : String
  sentiment : String
deriving DecidableEq

/-- The `sentimentCounts` object `{ positive: 0, negative: 0, neutral: 0 }`. -/
structure SentimentCounts where
  positive : Nat
  negative : Nat
  neutral : Nat
deriving DecidableEq

/-- The `results` object sent through `displayCommentAnalysis`
(lines 312-317; the zero-comment record of line 250 has the same shape). -/
structure AnalysisResult where
  totalFetched : Nat
  totalAnalyzed : Nat
  positive : Nat
  negative : Nat
  neutral : Nat
  sampleAnalyzedComments : List AnalyzedComment
deriving DecidableEq

/-- The `formattedResult` object of `performFactCheck` (lines 398-403).
`confidence` is `none` exactly when the source stores JavaScript `null`. -/
structure FormattedResult where
  verdict : String
  confidence : Option Rat
  explanation : String
  sources : List String
deriving DecidableEq

/-- A terminal result event: one `sendDataToPopup(action, data, error)` call.
(`updateStatus` messages go through a different function and are not result
events, so they are not modelled.) -/
inductive Event where
  | displayTranscript (data : Option String) (error : Option String)
  | displayCommentAnalysis (data : Option AnalysisResult) (error : Option String)
  | displayFactCheck (data : Option FormattedResult) (error : Option String)
deriving DecidableEq

/-- An issued network request, by target endpoint. -/
inductive Request where
  | commentsPage
  | classifierCall
  | factCheckCall
deriving DecidableEq

/-! ## Comment pagination (`fetchAndAnalyzeComments`, lines 222-247)

Each loop iteration issues one `commentThreads` request; the response is either
a non-success status (thrown as an error) or a page whose `items` and
`nextPageToken` fields may each be absent. The finite list of outcomes is the
interaction trace; an exhausted trace ends the loop (like an absent token). -/

structure CommentPage where
  items : Option (List Comment)
  nextPageToken : Option String
deriving DecidableEq

inductive PageOutcome where
  | httpError (msg : String)
  | ok (page : CommentPage)
deriving DecidableEq

/-- The `do ... while (nextPageToken && fetchedCount < maxResults)` loop,
accumulating comments and `fetchedCount` and recording each issued request. -/
def paginate (maxResults : Nat) :
    List PageOutcome → Nat → List Comment →
    Except String (List Comment × Nat) × List Request
  | [], fetchedCount, acc => (Except.ok (acc, fetchedCount), [])
  | p :: rest, fetchedCount, acc =>
    match p with
    | PageOutcome.httpError m => (Except.error m, [Request.commentsPage])
    | PageOutcome.ok page =>
      let pageComments := page.items.getD []
      let acc2 := acc ++ pageComments
      let fetched2 := fetchedCount + pageComments.length
      if jsTruthyOpt page.nextPageToken && decide (fetched2 < maxResults) then
        let r := paginate maxResults rest fetched2 acc2
        (r.1, Request.commentsPage :: r.2)
      else (Except.ok (acc2, fetched2), [Request.commentsPage])

/-! ## Sentiment classification per batch (lines 259-309)

For each batch one classifier request is issued. The response is either a
non-success status (the batch is skipped with `continue`), a body on which
`response.json()` throws (aborting the whole analysis through the outer
catch), or a body whose candidate text is extracted; `JSON.parse` of that text
either throws, yields a non-array value, or yields an array of entries whose
`id` and `sentiment` fields may each be absent. -/

structure SentimentEntry where
  id : Option String
  sentiment : Option String
deriving DecidableEq

inductive ParseOutcome where
  | parseFail
  | nonArray
  | array (entries : List SentimentEntry)
deriving DecidableEq

inductive ClassifierResponse where
  | httpError
  | envelopeError (msg : String)
  | ok (outcome : ParseOutcome)
deriving DecidableEq

/-- `batch.find(c => c.id === sentimentResult.id)`: an absent `id` compares
unequal to every string id. -/
def matchComment (batch : List Comment) (sid : Option String) : Option Comment :=
  match sid with
  | none => none
  | some s => batch.find? (fun c => c.id == s)

/-- Own-property names of `Object.prototype`: a bracket lookup on a plain
object literal also finds these inherited members, none of which is
undefined, so `sentimentCounts[s] !== undefined` passes for them too. -/
def objectPrototypeKeys : List String :=
  ["constructor", "hasOwnProperty", "isPrototypeOf", "propertyIsEnumerable",
   "toLocaleString", "toString", "valueOf", "__defineGetter__", "__defineSetter__",
   "__lookupGetter__", "__lookupSetter__", "__proto__"]

/-- Lines 292-296: `if (sentimentCounts[sentiment] !== undefined)` increments
the property named by `sentiment`, else increments `neutral`. The bracket
lookup consults the prototype chain, so it also passes for the members
`sentimentCounts` inherits from `Object.prototype` (for instance
`constructor`); for those the increment creates or updates that unrelated
property (setting it to NaN, or being swallowed by the `__proto__` setter)
and none of the three counters changes. A repeated such sentiment still takes
this branch (the stored NaN is not undefined), so the counters are a pure
function of the incoming string. -/
def bumpCounter (c : SentimentCounts) (sentiment : String) : SentimentCounts :=
  if sentiment = "positive" then { c with positive := c.positive + 1 }
  else if sentiment = "negative" then { c with negative := c.negative + 1 }
  else if sentiment = "neutral" then { c with neutral := c.neutral + 1 }
  else if objectPrototypeKeys.contains sentiment then c
  else { c with neutral := c.neutral + 1 }

/-- Body of `sentiments.forEach(sentimentResult => ...)` (lines 287-298). -/
def applyEntry (batch : List Comment)
    (acc : List AnalyzedComment × SentimentCounts) (sr : SentimentEntry) :
    List AnalyzedComment × SentimentCounts :=
  match matchComment batch sr.id with
  | none => acc
  | some c =>
    let sentiment := toLowerAscii (jsOr sr.sentiment "neutral")
    (acc.1 ++ [⟨c.id, c.text, sentiment⟩], bumpCounter acc.2 sentiment)

/-- Lines 281-308: the inner `try`/`catch` around the parse of one batch
response. A throwing `JSON.parse` labels the whole batch neutral; a non-array
parse result is only logged and contributes nothing. -/
def processBatch (batch : List Comment) (outcome : ParseOutcome)
    (acc : List AnalyzedComment × SentimentCounts) :
    List AnalyzedComment × SentimentCounts :=
  match outcome with
  | ParseOutcome.array entries => entries.foldl (applyEntry batch) acc
  | ParseOutcome.nonArray => acc
  | ParseOutcome.parseFail =>
    (acc.1 ++ batch.map (fun c => ⟨c.id, c.text, "neutral"⟩),
     { acc.2 with neutral := acc.2.neutral + batch.length })

/-- `comments.slice(i, i + batchSize)` chunking with `batchSize = 10`; the
fuel argument (instantiated with the list length) keeps the recursion
structural. -/
def chunksFuel : Nat → List Comment → List (List Comment)
  | 0, _ => []
  | _ + 1, [] => []
  | fuel + 1, c :: cs => (c :: cs).take 10 :: chunksFuel fuel ((c :: cs).drop 10)

/-- Partition the comment list into batches of 10. -/
def chunks10 (l : List Comment) : List (List Comment) :=
  chunksFuel l.length l

/-- The `for (let i = 0; i < comments.length; i += batchSize)` loop: the i-th
batch consumes the i-th classifier response; each iteration records one
classifier request; a body on which `response.json()` throws aborts the loop
with an error. -/
def runBatches (resp : Nat → ClassifierResponse) :
    List (List Comment) → Nat → List AnalyzedComment × SentimentCounts →
    Except String (List AnalyzedComment × SentimentCounts) × List Request
  | [], _, acc => (Except.ok acc, [])
  | b :: bs, i, acc =>
    match resp i with
    | ClassifierResponse.httpError =>
      let r := runBatches resp bs (i + 1) acc
      (r.1, Request.classifierCall :: r.2)
    | ClassifierResponse.envelopeError m => (Except.error m, [Request.classifierCall])
    | ClassifierResponse.ok outcome =>
      let r := runBatches resp bs (i + 1) (processBatch b outcome acc)
      (r.1, Request.classifierCall :: r.2)

/-- The zero-comment record of line 250. -/
def zeroAnalysis : AnalysisResult :=
  ⟨0, 0, 0, 0, 0, []⟩

/-- Error message thrown on line 213. -/
def youtubeKeyMsg : String := "YouTube API Key not set in options."

/-- Error message thrown on lines 214 and 336. -/
def geminiKeyMsg : String := "Gemini API Key not set in options."

/-- `fetchAndAnalyzeComments(videoId, maxResults)` (lines 209-330): returns
the result of the call (`Except.error` models an exception propagating to the
caller), the trace of `sendDataToPopup` events and the trace of issued
requests. Both key checks precede the `try` block, so a missing key throws
with no event and no request. The `catch` block emits one error event and
re-throws. -/
def fetchAndAnalyzeComments (youtubeKey geminiKey : Option String)
    (maxResults : Nat) (pages : List PageOutcome)
    (resp : Nat → ClassifierResponse) :
    Except String (Option AnalysisResult) × List Event × List Request :=
  match youtubeKey with
  | none => (Except.error youtubeKeyMsg, [], [])
  | some _ =>
    match geminiKey with
    | none => (Except.error geminiKeyMsg, [], [])
    | some _ =>
      match paginate maxResults pages 0 [] with
      | (Except.error m, reqs) =>
        (Except.error m,
         [Event.displayCommentAnalysis none (some ("Comment analysis failed: " ++ m))],
         reqs)
      | (Except.ok (comments, fetchedCount), reqs) =>
        if comments.isEmpty then
          (Except.ok none, [Event.displayCommentAnalysis (some zeroAnalysis) none], reqs)
        else
          match runBatches resp (chunks10 comments) 0 ([], ⟨0, 0, 0⟩) with
          | (Except.error m, reqs2) =>
            (Except.error m,
             [Event.displayCommentAnalysis none (some ("Comment analysis failed: " ++ m))],
             reqs ++ reqs2)
          | (Except.ok (analyzedComments, counts), reqs2) =>
            let results : AnalysisResult :=
              ⟨fetchedCount, analyzedComments.length,
               counts.positive, counts.negative, counts.neutral, analyzedComments⟩
            (Except.ok (some results),
             [Event.displayCommentAnalysis (some results) none],
             reqs ++ reqs2)

/-! ## Fact check (`performFactCheck`, lines 332-416)

The classifier response is either a non-success status (thrown), a body on
which `response.json()` throws (the thrown message is carried), or an
envelope. In the envelope, when `candidates[0].content.parts[0].text` is a
truthy string the source parses it as JSON (a throwing parse is converted to
the fixed `not valid JSON` error); when the text is absent or empty and the
content is an object, that object is used directly; otherwise the fixed
`no parsable content` error is thrown. Parsed objects are modelled by their
four consulted fields. -/

inductive SourcesVal where
  | arr (l : List String)
  | nonArrayVal
deriving DecidableEq

/-- The four fields of a parsed fact-check object that the source consults;
each may be absent. -/
structure FactObj where
  verdict : Option String
  confidence : Option Rat
  explanation : Option String
  sources : Option SourcesVal
deriving DecidableEq

inductive EnvelopeContent where
  | textPart (text : String) (parse : Option FactObj)
  | objectContent (obj : FactObj)
  | noContent
deriving DecidableEq

inductive FactCheckResponse where
  | httpError (msg : String)
  | envelopeError (msg : String)
  | envelope (content : EnvelopeContent)
deriving DecidableEq

/-- Lines 398-403: build `formattedResult` with the field defaults. -/
def formatFactCheck (p : FactObj) : FormattedResult :=
  { verdict := jsOr p.verdict "Unknown"
    confidence := p.confidence
    explanation := jsOr p.explanation "No explanation provided."
    sources := match p.sources with
               | some (SourcesVal.arr l) => l
               | _ => [] }

/-- Error thrown on line 387. -/
def notValidJsonMsg : String := "Fact-check response from Gemini was not valid JSON."

/-- Error thrown on line 393. -/
def noParsableMsg : String := "Could not find parsable content in Gemini fact-check response."

/-- `performFactCheck(textToFactCheck)`: the key check precedes the `try`
block (no event, no request on that path); the `catch` block emits one
`displayFactCheck` error event and re-throws; a success emits one
`displayFactCheck` data event. When `parts[0].text` is the empty string the
truthiness test fails and the source falls through to the object branch,
whose object (the content holding the empty text part) has none of the four
fields. -/
def performFactCheck (geminiKey : Option String) (resp : FactCheckResponse) :
    Except String FormattedResult × List Event × List Request :=
  match geminiKey with
  | none => (Except.error geminiKeyMsg, [], [])
  | some _ =>
    match resp with
    | FactCheckResponse.httpError m =>
      (Except.error m,
       [Event.displayFactCheck none (some ("Fact-check failed: " ++ m))],
       [Request.factCheckCall])
    | FactCheckResponse.envelopeError m =>
      (Except.error m,
       [Event.displayFactCheck none (some ("Fact-check failed: " ++ m))],
       [Request.factCheckCall])
    | FactCheckResponse.envelope content =>
      match content with
      | EnvelopeContent.textPart t parse =>
        if t = "" then
          let r := formatFactCheck ⟨none, none, none, none⟩
          (Except.ok r, [Event.displayFactCheck (some r) none], [Request.factCheckCall])
        else
          match parse with
          | none =>
            (Except.error notValidJsonMsg,
             [Event.displayFactCheck none (some ("Fact-check failed: " ++ notValidJsonMsg))],
             [Request.factCheckCall])
          | some obj =>
            let r := formatFactCheck obj
            (Except.ok r, [Event.displayFactCheck (some r) none], [Request.factCheckCall])
      | EnvelopeContent.objectContent obj =>
        let r := formatFactCheck obj
        (Except.ok r, [Event.displayFactCheck (some r) none], [Request.factCheckCall])
      | EnvelopeContent.noContent =>
        (Except.error noParsableMsg,
         [Event.displayFactCheck none (some ("Fact-check failed: " ++ noParsableMsg))],
         [Request.factCheckCall])

/-! ## Transcript fetch with fallback (`fetchTranscriptFromPage` and
`fetchAvailableTranscriptLangsAPI`, lines 64-206)

Every failure inside the page-scrape `try` block falls through to the API
listing fallback: a failed watch-page fetch, an absent
`ytInitialPlayerResponse`, a throwing `JSON.parse` of it, a missing captions
renderer, an absent or empty track list, a failed track-content fetch and a
transcript with no extracted lines. The fallback itself throws only when the
platform key is missing (that check precedes its `try` block, and the
rejection of the returned promise is not intercepted by the page-scrape
`catch`); its other failures emit an error event and return `null`. -/

inductive ScrapeOutcome where
  | watchFetchFail
  | noPlayerMatch
  | playerParseFail
  | noCaptionsRenderer
  | noTracks
  | tracks (ts : List CaptionTrack)
deriving DecidableEq

inductive TrackContent where
  | fetchFail
  | content (textMatches : Option (List String))
deriving DecidableEq

inductive ApiListOutcome where
  | httpFail (msg : String)
  | noItems
  | items (langs : List (String × String))
deriving DecidableEq

/-- `fetchAvailableTranscriptLangsAPI(videoId)` (lines 173-206): returns the
info string (or `none` after an error event) and the event trace; the only
thrown error is the missing platform key. -/
def fetchAvailableTranscriptLangsAPI (youtubeKey : Option String)
    (api : ApiListOutcome) : Except String (Option String) × List Event :=
  match youtubeKey with
  | none => (Except.error youtubeKeyMsg, [])
  | some _ =>
    match api with
    | ApiListOutcome.httpFail m =>
      (Except.ok none,
       [Event.displayTranscript none (some ("Transcript check via API failed: " ++ m))])
    | ApiListOutcome.noItems =>
      (Except.ok none,
       [Event.displayTranscript none
         (some "Transcript check via API failed: No captions found via API for this video.")])
    | ApiListOutcome.items langs =>
      let languages := langs.map (fun lk => lk.1 ++ " (" ++ lk.2 ++ ")")
      let message := "Transcript text download requires OAuth or may be restricted.\nAvailable caption tracks found via API:\n- "
        ++ String.intercalate "\n- " languages
      (Except.ok (some message), [Event.displayTranscript (some message) none])

/-- `fetchTranscriptFromPage(videoId)` (lines 64-170), called with the default
language preferences: on the page-scrape success path one data event is
emitted; every other path defers to the API fallback. -/
def fetchTranscriptFromPage (scrape : ScrapeOutcome) (trackResp : TrackContent)
    (youtubeKey : Option String) (api : ApiListOutcome) :
    Except String (Option String) × List Event :=
  match scrape with
  | ScrapeOutcome.watchFetchFail => fetchAvailableTranscriptLangsAPI youtubeKey api
  | ScrapeOutcome.noPlayerMatch => fetchAvailableTranscriptLangsAPI youtubeKey api
  | ScrapeOutcome.playerParseFail => fetchAvailableTranscriptLangsAPI youtubeKey api
  | ScrapeOutcome.noCaptionsRenderer => fetchAvailableTranscriptLangsAPI youtubeKey api
  | ScrapeOutcome.noTracks => fetchAvailableTranscriptLangsAPI youtubeKey api
  | ScrapeOutcome.tracks ts =>
    if ts.isEmpty then fetchAvailableTranscriptLangsAPI youtubeKey api
    else
      match selectTrack ts defaultLangPrefs with
      | none => fetchAvailableTranscriptLangsAPI youtubeKey api
      | some (_url, foundLang) =>
        match trackResp with
        | TrackContent.fetchFail => fetchAvailableTranscriptLangsAPI youtubeKey api
        | TrackContent.content ms =>
          match buildTranscript ms with
          | Except.error _ => fetchAvailableTranscriptLangsAPI youtubeKey api
          | Except.ok fullTranscript =>
            let payload := "Transcript (" ++ foundLang ++ "):\n--------------------\n" ++ fullTranscript
            (Except.ok (some fullTranscript), [Event.displayTranscript (some payload) none])

/-! ## The message listener flows (lines 421-477)

Each flow is the event trace produced by one request handled by
`chrome.runtime.onMessage`. Video-id resolution is modelled by its outcome. -/

/-- Flow of `action === "getTranscript"`: the listener `catch` emits one
`displayTranscript` error event for any exception thrown by the video-id
resolution or by the transcript functions. -/
def getTranscriptFlow (videoIdRes : Except String String) (scrape : ScrapeOutcome)
    (trackResp : TrackContent) (youtubeKey : Option String) (api : ApiListOutcome) :
    List Event :=
  match videoIdRes with
  | Except.error m => [Event.displayTranscript none (some ("Error: " ++ m))]
  | Except.ok _ =>
    match fetchTranscriptFromPage scrape trackResp youtubeKey api with
    | (Except.ok _, evs) => evs
    | (Except.error m, evs) => evs ++ [Event.displayTranscript none (some ("Error: " ++ m))]

/-- Flow of `action === "analyzeComments"`: the listener `catch` emits one
`displayCommentAnalysis` error event for any exception (in addition to the
one the `catch` inside `fetchAndAnalyzeComments` already emitted before
re-throwing). -/
def analyzeCommentsFlow (videoIdRes : Except String String)
    (youtubeKey geminiKey : Option String) (pages : List PageOutcome)
    (resp : Nat → ClassifierResponse) : List Event :=
  match videoIdRes with
  | Except.error m => [Event.displayCommentAnalysis none (some ("Error: " ++ m))]
  | Except.ok _ =>
    match fetchAndAnalyzeComments youtubeKey geminiKey 50 pages resp with
    | (Except.ok _, evs, _) => evs
    | (Except.error m, evs, _) => evs ++ [Event.displayCommentAnalysis none (some ("Error: " ++ m))]

/-- Flow of `action === "factCheckSelection"`: the listener `catch` emits no
result event (only a status update), relying on `performFactCheck` to have
done so. -/
def factCheckFlow (geminiKey : Option String) (resp : FactCheckResponse) :
    List Event :=
  (performFactCheck geminiKey resp).2.1

/-- `Except.error` discriminator. -/
def exceptIsErr {ε α : Type} (e : Except ε α) : Bool :=
  match e with
  | Except.error _ => true
  | Except.ok _ => false

/-- Condition under which the comment-analysis flow emits two terminal
events: the video id resolved, both keys were present, and the analysis
threw after entering its `try` block. -/
def analyzeInnerFailure (videoIdRes : Except String String)
    (youtubeKey geminiKey : Option String) (pages : List PageOutcome)
    (resp : Nat → ClassifierResponse) : Bool :=
  !(exceptIsErr videoIdRes) && youtubeKey.isSome && geminiKey.isSome
    && exceptIsErr (fetchAndAnalyzeComments youtubeKey geminiKey 50 pages resp).1

/-! ## Helper lemmas -/

theorem fallback_eventCount (youtubeKey : Option String) (api : ApiListOutcome) :
    (fetchAvailableTranscriptLangsAPI youtubeKey api).2.length =
      if exceptIsErr (fetchAvailableTranscriptLangsAPI youtubeKey api).1 then 0 else 1 := by
  cases youtubeKey <;> cases api <;> rfl

theorem page_eventCount (scrape : ScrapeOutcome) (trackResp : TrackContent)
    (youtubeKey : Option String) (api : ApiListOutcome) :
    (fetchTranscriptFromPage scrape trackResp youtubeKey api).2.length =
      if exceptIsErr (fetchTranscriptFromPage scrape trackResp youtubeKey api).1 then 0 else 1 := by
  cases scrape with
  | watchFetchFail => exact fallback_eventCount youtubeKey api
  | noPlayerMatch => exact fallback_eventCount youtubeKey api
  | playerParseFail => exact fallback_eventCount youtubeKey api
  | noCaptionsRenderer => exact fallback_eventCount youtubeKey api
  | noTracks => exact fallback_eventCount youtubeKey api
  | tracks ts =>
    simp only [fetchTranscriptFromPage]
    by_cases hts : ts.isEmpty
    · rw [if_pos hts]
      exact fallback_eventCount youtubeKey api
    · rw [if_neg hts]
      cases hsel : selectTrack ts defaultLangPrefs with
      | none => exact fallback_eventCount youtubeKey api
      | some r =>
        obtain ⟨url, foundLang⟩ := r
        cases trackResp with
        | fetchFail => exact fallback_eventCount youtubeKey api
        | content ms =>
          cases hb : buildTranscript ms with
          | error m =>
            simp only [hb]
            exact fallback_eventCount youtubeKey api
          | ok t => simp [hb, exceptIsErr]

theorem analyze_eventCount (youtubeKey geminiKey : Option String) (maxResults : Nat)
    (pages : List PageOutcome) (resp : Nat → ClassifierResponse) :
    (fetchAndAnalyzeComments youtubeKey geminiKey maxResults pages resp).2.1.length =
      if youtubeKey.isSome && geminiKey.isSome then 1 else 0 := by
  cases youtubeKey with
  | none => rfl
  | some yk =>
    cases geminiKey with
    | none => rfl
    | some gk =>
      simp only [Option.isSome_some, Bool.and_self, if_true]
      unfold fetchAndAnalyzeComments
      rcases hpair : paginate maxResults pages 0 [] with ⟨pres, reqs⟩
      cases pres with
      | error m => rfl
      | ok cf =>
        obtain ⟨comments, fetched⟩ := cf
        by_cases hc : comments.isEmpty
        · simp [hc]
        · simp only [hc, Bool.false_eq_true, if_false]
          rcases hrb : runBatches resp (chunks10 comments) 0 ([], ⟨0, 0, 0⟩) with ⟨rres, reqs2⟩
          cases rres <;> simp

theorem selectLoop_human_of_no_earlier (tracks : List CaptionTrack) (lang : String)
    (post : List String) (t : CaptionTrack)
    (ht : findHumanTrack tracks lang = some t) :
    ∀ (pre : List String) (best : Option (String × String)),
      (∀ l ∈ pre, findHumanTrack tracks l = none) →
      selectLoop tracks (pre ++ lang :: post) best = some (t.baseUrl, lang)
  | [], best, _ => by simp [selectLoop, ht]
  | l :: pre, best, hpre => by
    have hl : findHumanTrack tracks l = none := hpre l (List.mem_cons_self l pre)
    have hrest : ∀ x ∈ pre, findHumanTrack tracks x = none :=
      fun x hx => hpre x (List.mem_cons_of_mem _ hx)
    rw [List.cons_append]
    show selectLoop tracks (l :: (pre ++ lang :: post)) best = some (t.baseUrl, lang)
    unfold selectLoop
    rw [hl]
    cases best with
    | none =>
      cases findAsrTrack tracks l with
      | none => exact selectLoop_human_of_no_earlier tracks lang post t ht pre none hrest
      | some a => exact selectLoop_human_of_no_earlier tracks lang post t ht pre _ hrest
    | some b => exact selectLoop_human_of_no_earlier tracks lang post t ht pre (some b) hrest

/-! ## The claims -/

/-- C1 (counterexample): the claim states that once an asr track has been
selected for an earlier-preferred language, a human-authored track for a
later-preferred language does not replace it, so on the track list
`[ta/asr, en/human]` with preferences `[ta, en]` the selection would have to
be the `ta` asr track (`u1`, tag `ta (auto)`). The source instead returns the
`en` human track: the human-match branch of the preference loop assigns
`bestTrackUrl` unconditionally and breaks. -/
theorem C1_counterexample :
    selectTrack [⟨"ta", some "asr", "u1"⟩, ⟨"en", none, "u2"⟩] ["ta", "en"] =
      some ("u2", "en") ∧
    selectTrack [⟨"ta", some "asr", "u1"⟩, ⟨"en", none, "u2"⟩] ["ta", "en"] ≠
      some ("u1", "ta (auto)") :=
  ⟨rfl, by decide⟩

/-- C1 (amended): a human-authored track for a later-preferred language DOES
replace an already-found asr track of an earlier preference: whenever no
earlier preference has a human-authored track and preference `lang` has one,
the selection is that human track, regardless of asr tracks at the earlier
preferences. -/
theorem C1_human_priority (tracks : List CaptionTrack) (pre : List String)
    (lang : String) (post : List String) (t : CaptionTrack)
    (hpre : ∀ l ∈ pre, findHumanTrack tracks l = none)
    (ht : findHumanTrack tracks lang = some t) :
    selectTrack tracks (pre ++ lang :: post) = some (t.baseUrl, lang) := by
  have h := selectLoop_human_of_no_earlier tracks lang post t ht pre none hpre
  simp [selectTrack, h]

/-- C1 (witness): the amended theorem applied to the counterexample
configuration. -/
theorem C1_human_priority_witness :
    (∀ l ∈ ["ta"], findHumanTrack [⟨"ta", some "asr", "u1"⟩, ⟨"en", none, "u2"⟩] l = none) ∧
    findHumanTrack [⟨"ta", some "asr", "u1"⟩, ⟨"en", none, "u2"⟩] "en" =
      some ⟨"en", none, "u2"⟩ ∧
    selectTrack [⟨"ta", some "asr", "u1"⟩, ⟨"en", none, "u2"⟩] (["ta"] ++ "en" :: []) =
      some ("u2", "en") :=
  ⟨by decide, by decide,
   C1_human_priority [⟨"ta", some "asr", "u1"⟩, ⟨"en", none, "u2"⟩] ["ta"] "en" []
     ⟨"en", none, "u2"⟩ (by decide) (by decide)⟩

/-- C2 (counterexample): the claim covers every successful call whose body
does not parse as a JSON array; a body that parses as JSON but yields a
non-array value (for instance `\x7b\x7d`) falls in that scope, yet the source
only logs a warning and counts nothing for the batch: on the singleton batch
below, the claim demands a sample of length 1 and a neutral count of 1, but
the accumulator is unchanged. -/
theorem C2_counterexample :
    processBatch [⟨"1", "hi"⟩] ParseOutcome.nonArray ([], ⟨0, 0, 0⟩) = ([], ⟨0, 0, 0⟩) ∧
    ¬ ((processBatch [⟨"1", "hi"⟩] ParseOutcome.nonArray ([], ⟨0, 0, 0⟩)).1.length = 1 ∧
       (processBatch [⟨"1", "hi"⟩] ParseOutcome.nonArray ([], ⟨0, 0, 0⟩)).2.neutral = 1) :=
  ⟨rfl, by decide⟩

/-- C2 (amended): for every batch whose classifier call succeeds but whose
content text fails to parse as JSON (the parse throws), every comment of the
batch is labeled neutral, the neutral count increases by the batch size, the
other counts are unchanged and the analyzed sample advances by the batch
size; a content text that parses to a non-array JSON value instead
contributes nothing. -/
theorem C2_parse_failure_neutral (batch : List Comment)
    (acc : List AnalyzedComment × SentimentCounts) :
    processBatch batch ParseOutcome.parseFail acc =
      (acc.1 ++ batch.map (fun c => ⟨c.id, c.text, "neutral"⟩),
       ⟨acc.2.positive, acc.2.negative, acc.2.neutral + batch.length⟩) ∧
    (processBatch batch ParseOutcome.parseFail acc).1.length =
      acc.1.length + batch.length ∧
    processBatch batch ParseOutcome.nonArray acc = acc :=
  ⟨rfl, by simp [processBatch], rfl⟩

/-- C3 (counterexample): on a response whose candidate text is present but is
not valid JSON, the claim demands a returned record with verdict Unknown and
no exception; the source instead throws (the outer catch emits an error event
and re-throws), so the call ends in an error, not in a returned record. -/
theorem C3_counterexample :
    (performFactCheck (some "k")
      (FactCheckResponse.envelope (EnvelopeContent.textPart "not json" none))) =
      (Except.error notValidJsonMsg,
       [Event.displayFactCheck none (some ("Fact-check failed: " ++ notValidJsonMsg))],
       [Request.factCheckCall]) :=
  rfl

/-- Responses from which `performFactCheck` obtains no parsable JSON object:
a body on which `response.json()` throws, a truthy candidate text whose
`JSON.parse` throws, and an envelope with neither a text part nor an object
content. -/
def noParsableContent : FactCheckResponse → Bool
  | FactCheckResponse.envelopeError _ => true
  | FactCheckResponse.envelope (EnvelopeContent.textPart t none) => !(t = "")
  | FactCheckResponse.envelope EnvelopeContent.noContent => true
  | _ => false

/-- C3 (amended): for every classifier response that yields no parsable JSON
object, `performFactCheck` emits exactly one `displayFactCheck` error event
and then propagates an exception to its caller; the
Unknown/null/empty-sources/placeholder defaults are applied only to a
successfully parsed object with missing fields. -/
theorem C3_unparsable_emits_error_then_throws (k : String) (resp : FactCheckResponse)
    (h : noParsableContent resp = true) :
    ∃ m, performFactCheck (some k) resp =
      (Except.error m,
       [Event.displayFactCheck none (some ("Fact-check failed: " ++ m))],
       [Request.factCheckCall]) := by
  cases resp with
  | httpError m => simp [noParsableContent] at h
  | envelopeError m => exact ⟨m, rfl⟩
  | envelope c =>
    cases c with
    | textPart t parse =>
      cases parse with
      | none =>
        have ht : ¬ (t = "") := by simpa [noParsableContent] using h
        exact ⟨notValidJsonMsg, by simp [performFactCheck, ht]⟩
      | some obj => simp [noParsableContent] at h
    | objectContent obj => simp [noParsableContent] at h
    | noContent => exact ⟨noParsableMsg, rfl⟩

/-- C3 (witness): the amended theorem applied to a concrete unparseable
response. -/
theorem C3_unparsable_witness :
    noParsableContent (FactCheckResponse.envelope (EnvelopeContent.textPart "oops" none)) = true ∧
    ∃ m, performFactCheck (some "key")
        (FactCheckResponse.envelope (EnvelopeContent.textPart "oops" none)) =
      (Except.error m,
       [Event.displayFactCheck none (some ("Fact-check failed: " ++ m))],
       [Request.factCheckCall]) :=
  ⟨rfl, C3_unparsable_emits_error_then_throws "key"
    (FactCheckResponse.envelope (EnvelopeContent.textPart "oops" none)) rfl⟩

/-- C4 (counterexample): the claim says every triggered operation emits
exactly one terminal result event, never zero; a `factCheckSelection` request
with the generative-language key missing emits zero, because the key check in
`performFactCheck` throws before its `try` block and the listener catch for
fact checks sends no result event. -/
theorem C4_counterexample :
    (factCheckFlow none (FactCheckResponse.httpError "boom")).length = 0 :=
  rfl

/-- C4 (amended): a `getTranscript` request always emits exactly one terminal
result event; a `factCheckSelection` request emits exactly one except when the
generative-language key is missing, where it emits zero; an `analyzeComments`
request emits exactly one except when the analysis throws after both key
checks passed, where the inner catch and the listener catch each emit one, for
a total of two. -/
theorem C4_terminal_event_counts :
    (∀ (videoIdRes : Except String String) (scrape : ScrapeOutcome)
       (trackResp : TrackContent) (youtubeKey : Option String) (api : ApiListOutcome),
      (getTranscriptFlow videoIdRes scrape trackResp youtubeKey api).length = 1) ∧
    (∀ (geminiKey : Option String) (resp : FactCheckResponse),
      (factCheckFlow geminiKey resp).length = if geminiKey.isSome then 1 else 0) ∧
    (∀ (videoIdRes : Except String String) (youtubeKey geminiKey : Option String)
       (pages : List PageOutcome) (resp : Nat → ClassifierResponse),
      (analyzeCommentsFlow videoIdRes youtubeKey geminiKey pages resp).length =
        if analyzeInnerFailure videoIdRes youtubeKey geminiKey pages resp then 2 else 1) := by
  refine ⟨?_, ?_, ?_⟩
  · intro videoIdRes scrape trackResp youtubeKey api
    cases videoIdRes with
    | error m => rfl
    | ok v =>
      have h := page_eventCount scrape trackResp youtubeKey api
      unfold getTranscriptFlow
      rcases hp : fetchTranscriptFromPage scrape trackResp youtubeKey api with ⟨res, evs⟩
      rw [hp] at h
      cases res with
      | ok x => simpa [exceptIsErr] using h
      | error m =>
        simp only [exceptIsErr, if_true] at h
        simp [h]
  · intro geminiKey resp
    cases geminiKey with
    | none => rfl
    | some k =>
      cases resp with
      | httpError m => rfl
      | envelopeError m => rfl
      | envelope c =>
        cases c with
        | textPart t parse =>
          simp only [factCheckFlow, performFactCheck]
          by_cases ht : t = ""
          · rw [if_pos ht]
            rfl
          · rw [if_neg ht]
            cases parse <;> rfl
        | objectContent obj => rfl
        | noContent => rfl
  · intro videoIdRes youtubeKey geminiKey pages resp
    cases videoIdRes with
    | error m => rfl
    | ok v =>
      cases youtubeKey with
      | none => rfl
      | some yk =>
        cases geminiKey with
        | none => rfl
        | some gk =>
          have h := analyze_eventCount (some yk) (some gk) 50 pages resp
          unfold analyzeCommentsFlow analyzeInnerFailure
          rcases hf : fetchAndAnalyzeComments (some yk) (some gk) 50 pages resp with ⟨res, evs, reqs⟩
          rw [hf] at h
          simp only [Option.isSome_some, Bool.and_self, if_true] at h
          cases res with
          | ok r => simpa [exceptIsErr] using h
          | error m => simp [exceptIsErr, h]

/-- C5 (code evaluated at the failing input): the claim demands that the five
HTML entity references are decoded, so the timed-text entry
`<text start="0" dur="1">a &amp; b</text>` would have to produce the
transcript `a & b`; the replace chain of line 151 substitutes every
character for itself (its patterns are the plain characters, not entity
references), so the code leaves `&amp;` in place. -/
theorem C5_entity_decode_eval :
    decodeEntities "a &amp; b" = "a &amp; b" ∧
    buildTranscript (some ["<text start=\"0\" dur=\"1\">a &amp; b</text>"]) =
      Except.ok "a &amp; b" :=
  ⟨rfl, rfl⟩

/-- C6: a batch whose classifier call returns a non-success status is skipped
without retry: the analysis result starting from that batch equals the result
of running the remaining batches alone, so the batch contributes nothing to
the analyzed total, to any sentiment count or to the sample. -/
theorem C6_http_error_batch_skipped (resp : Nat → ClassifierResponse)
    (b : List Comment) (bs : List (List Comment)) (i : Nat)
    (acc : List AnalyzedComment × SentimentCounts)
    (h : resp i = ClassifierResponse.httpError) :
    (runBatches resp (b :: bs) i acc).1 = (runBatches resp bs (i + 1) acc).1 := by
  simp [runBatches, h]

/-- C6 (witness): the theorem applied to an everywhere-failing classifier. -/
theorem C6_http_error_witness :
    ((fun _ : Nat => ClassifierResponse.httpError) 0 = ClassifierResponse.httpError) ∧
    (runBatches (fun _ => ClassifierResponse.httpError) [[⟨"1", "x"⟩]] 0 ([], ⟨0, 0, 0⟩)).1 =
      (runBatches (fun _ => ClassifierResponse.httpError) [] 1 ([], ⟨0, 0, 0⟩)).1 :=
  ⟨rfl, C6_http_error_batch_skipped (fun _ => ClassifierResponse.httpError)
    [⟨"1", "x"⟩] [] 0 ([], ⟨0, 0, 0⟩) rfl⟩

/-- C7: with the generative-language key absent, both the comment analyzer
and the fact checker throw their key-not-set error with an empty request
trace, so no network request (in particular none to the classifier) is ever
issued; the analyzer reports the platform-key message first when that key is
also missing, and the Gemini message otherwise. -/
theorem C7_missing_gemini_key_no_network (youtubeKey : Option String) (maxResults : Nat)
    (pages : List PageOutcome) (resp : Nat → ClassifierResponse)
    (fcResp : FactCheckResponse) :
    fetchAndAnalyzeComments youtubeKey none maxResults pages resp =
      (Except.error (if youtubeKey.isSome then geminiKeyMsg else youtubeKeyMsg), [], []) ∧
    performFactCheck none fcResp = (Except.error geminiKeyMsg, [], []) := by
  constructor
  · cases youtubeKey <;> rfl
  · rfl

/-- C8: field defaulting in the fact-check formatter: a missing verdict
becomes Unknown, a missing confidence stays null while a present confidence
(zero included) is preserved unchanged, a missing explanation becomes the
placeholder, and sources that are absent or not an array become the empty
list. -/
theorem C8_fact_check_defaults (p : FactObj) :
    (p.verdict = none → (formatFactCheck p).verdict = "Unknown") ∧
    (p.confidence = none → (formatFactCheck p).confidence = none) ∧
    (∀ q : Rat, p.confidence = some q → (formatFactCheck p).confidence = some q) ∧
    (p.explanation = none → (formatFactCheck p).explanation = "No explanation provided.") ∧
    ((p.sources = none ∨ p.sources = some SourcesVal.nonArrayVal) →
      (formatFactCheck p).sources = []) := by
  refine ⟨?_, ?_, ?_, ?_, ?_⟩
  · intro h; simp [formatFactCheck, jsOr, h]
  · intro h; simp [formatFactCheck, h]
  · intro q h; simp [formatFactCheck, h]
  · intro h; simp [formatFactCheck, jsOr, h]
  · rintro (h | h) <;> simp [formatFactCheck, h]

/-- C8 (witness): the defaults evaluated on an object with no verdict, a
present confidence of 0, no explanation and no sources field. -/
theorem C8_fact_check_defaults_witness :
    (formatFactCheck ⟨none, some 0, none, none⟩).verdict = "Unknown" ∧
    (formatFactCheck ⟨none, some 0, none, none⟩).confidence = some 0 ∧
    (formatFactCheck ⟨none, some 0, none, none⟩).explanation = "No explanation provided." ∧
    (formatFactCheck ⟨none, some 0, none, none⟩).sources = [] :=
  ⟨(C8_fact_check_defaults ⟨none, some 0, none, none⟩).1 rfl,
   (C8_fact_check_defaults ⟨none, some 0, none, none⟩).2.2.1 0 rfl,
   (C8_fact_check_defaults ⟨none, some 0, none, none⟩).2.2.2.1 rfl,
   (C8_fact_check_defaults ⟨none, some 0, none, none⟩).2.2.2.2 (Or.inl rfl)⟩

/-- C9: when pagination yields zero comments, the analyzer returns
successfully (no exception) and emits the all-zero record: totalFetched 0,
totalAnalyzed 0 and all three sentiment counts 0. -/
theorem C9_zero_comments_success (yk gk : String) (maxResults : Nat)
    (pages : List PageOutcome) (resp : Nat → ClassifierResponse) (n : Nat)
    (hp : (paginate maxResults pages 0 []).1 = Except.ok ([], n)) :
    fetchAndAnalyzeComments (some yk) (some gk) maxResults pages resp =
      (Except.ok none, [Event.displayCommentAnalysis (some zeroAnalysis) none],
       (paginate maxResults pages 0 []).2) := by
  unfold fetchAndAnalyzeComments
  rcases hpair : paginate maxResults pages 0 [] with ⟨pres, reqs⟩
  rw [hpair] at hp
  simp only at hp
  subst hp
  rfl

/-- C9 (witness): a single page with no items and no continuation token. -/
theorem C9_zero_comments_witness :
    (paginate 50 [PageOutcome.ok ⟨none, none⟩] 0 []).1 = Except.ok ([], 0) ∧
    fetchAndAnalyzeComments (some "yk") (some "gk") 50 [PageOutcome.ok ⟨none, none⟩]
        (fun _ => ClassifierResponse.httpError) =
      (Except.ok none, [Event.displayCommentAnalysis (some zeroAnalysis) none],
       (paginate 50 [PageOutcome.ok ⟨none, none⟩] 0 []).2) :=
  ⟨rfl, C9_zero_comments_success "yk" "gk" 50 [PageOutcome.ok ⟨none, none⟩]
    (fun _ => ClassifierResponse.httpError) 0 rfl⟩

/-- C10 (code evaluated at the failing input): the claim says every entry
pushed into the analyzed sample increments exactly one counter, so
totalAnalyzed would equal positive + negative + neutral. For a classifier
sentiment `constructor` (already lowercase), the test
`sentimentCounts[sentiment] !== undefined` passes through the inherited
`Object.prototype.constructor`, so the increment lands on an unrelated
`constructor` property while the entry is still pushed on line 291: the run
below reports totalAnalyzed 1 with all three counts 0, violating the
invariant (1 is not 0 + 0 + 0). The inline comment on line 295 documents that
unexpected classifications default to neutral, which would make the invariant
hold, so the inherited-property leak is a slip of the code. -/
theorem C10_prototype_key_eval :
    (fetchAndAnalyzeComments (some "yk") (some "gk") 50
        [PageOutcome.ok ⟨some [⟨"1", "great"⟩], none⟩]
        (fun _ => ClassifierResponse.ok (ParseOutcome.array
          [⟨some "1", some "constructor"⟩]))).1 =
      Except.ok (some ⟨1, 1, 0, 0, 0, [⟨"1", "great", "constructor"⟩]⟩) ∧
    (⟨1, 1, 0, 0, 0, [⟨"1", "great", "constructor"⟩]⟩ :
        AnalysisResult).totalAnalyzed ≠
      (⟨1, 1, 0, 0, 0, [⟨"1", "great", "constructor"⟩]⟩ :
        AnalysisResult).positive +
      (⟨1, 1, 0, 0, 0, [⟨"1", "great", "constructor"⟩]⟩ :
        AnalysisResult).negative +
      (⟨1, 1, 0, 0, 0, [⟨"1", "great", "constructor"⟩]⟩ :
        AnalysisResult).neutral :=
  ⟨rfl, by decide⟩
